import Mathlib

/-!
Verification of the `akumulid` daemon front-end (Akumuli time-series database).

This file shallowly embeds the parts of `src/akumulid/main.cpp` (which also
contains the UDP server implementation), and of the query-pipeline header
`src/unnamed/part_000`, that the specification's claims are about:

* `ConfigFile::get_memory_size` — the volume-size string decoder;
* `ConfigFile::init_config` / `init_exp_config` and the INI configuration
  reader (`boost::property_tree::ini_parser` semantics), with the getters
  used by the daemon;
* `ConfigFile::get_wal_settings` and the WAL-validation block of
  `cmd_run_server`, together with the top-level `main` error policy;
* the UDP server worker's per-batch parse loop and the stop protocol
  (modelled as an interleaving transition system);
* the `QueryResultsPooler` state machine (whose implementation file is not
  part of the sources here; it is modelled from the specification).

Machine integers are modelled as `Nat`/`Int` with explicit wrap-around where
the C++ code can overflow or truncate.
-/

namespace Akumuli

/-! ## ConfigFile::get_memory_size (main.cpp lines 202-238) -/

/-- 2^64, the modulus of the C++ `u64` type. -/
def U64_MOD : Nat := 18446744073709551616

/-- Value of a decimal digit string (most significant first). -/
def digitsToNat (l : List Char) : Nat :=
  l.foldl (fun acc c => acc * 10 + (c.toNat - '0'.toNat)) 0

/-- `boost::lexical_cast<u64>`: succeeds exactly on a non-empty all-digit
string whose value fits into 64 bits; otherwise throws
`bad_lexical_cast` (modelled as `none`). -/
def lexical_cast_u64 (s : List Char) : Option Nat :=
  if s ≠ [] ∧ s.all Char.isDigit then
    let v := digitsToNat s
    if v < U64_MOD then some v else none
  else none

/-- Result of `ConfigFile::get_memory_size`.  `decodeError` is the
`throw_decode_error()` path ("can't decode volume size"); `undefinedBack`
marks a call of `std::string::back()` on an empty string, which is
undefined behaviour (out-of-bounds access). -/
inductive MemSizeResult
  | ok (bytes : Nat)
  | decodeError
  | undefinedBack
  deriving DecidableEq, Repr

/-- `ConfigFile::get_memory_size` over the character list of the input.
First tries `lexical_cast<u64>` on the whole string; on failure inspects
the suffix: `back()` must be `B`/`b`, it is popped, the next `back()` must
be `G`/`g` (mul = 2^30) or `M`/`m` (mul = 2^20), it is popped, and the rest
is cast again; the result is multiplied by `mul` (u64 arithmetic).  Each
`back()` on an empty string is undefined behaviour. -/
def get_memory_size_chars (strsize : List Char) : MemSizeResult :=
  match lexical_cast_u64 strsize with
  | some v => .ok v
  | none =>
    match strsize.getLast? with
    | none => .undefinedBack
    | some c =>
      if c ≠ 'B' ∧ c ≠ 'b' then .decodeError
      else
        let tmp := strsize.dropLast
        match tmp.getLast? with
        | none => .undefinedBack
        | some symbol =>
          let tmp2 := tmp.dropLast
          if symbol = 'G' ∨ symbol = 'g' then
            match lexical_cast_u64 tmp2 with
            | some r => .ok (r * 1073741824 % U64_MOD)
            | none => .decodeError
          else if symbol = 'M' ∨ symbol = 'm' then
            match lexical_cast_u64 tmp2 with
            | some r => .ok (r * 1048576 % U64_MOD)
            | none => .decodeError
          else .decodeError

/-- `ConfigFile::get_memory_size` on a `std::string`. -/
def get_memory_size (strsize : String) : MemSizeResult :=
  get_memory_size_chars strsize.data

/-! ## UDP worker batch parsing (UdpServer::worker, main.cpp lines 973-1027) -/

/-- One UDP datagram as seen by the worker's parse loop: either a
well-formed RESP payload carrying a list of samples, or a malformed
payload whose parse throws `StreamError`. -/
inductive Datagram
  | valid (samples : List Nat)
  | malformed
  deriving DecidableEq, Repr

/-- State of a `RESPProtocolParser`.  Per the comment at main.cpp lines
997-1000, one bad packet can corrupt the state of the parser and it will
be unable to process the remaining packets. -/
structure RESPProtocolParser where
  corrupted : Bool
  deriving DecidableEq, Repr

/-- A freshly constructed `RESPProtocolParser(spout)` (main.cpp line 996). -/
def freshParser : RESPProtocolParser := { corrupted := false }

/-- `parser.parse_next(buf, mlen)`: on a well-formed payload an
uncorrupted parser ingests the samples; a malformed payload throws
`StreamError` (modelled as `none`) and corrupts the parser; a corrupted
parser cannot process further data. -/
def parse_next (p : RESPProtocolParser) (d : Datagram) :
    RESPProtocolParser × Option (List Nat) :=
  if p.corrupted then ({ corrupted := true }, none)
  else
    match d with
    | .valid samples => (p, some samples)
    | .malformed => ({ corrupted := true }, none)

/-- The worker's loop over the datagrams of one batch (main.cpp lines
1004-1023): each datagram is copied into the parser's buffer and
`parse_next` is called; a `StreamError` (or `DatabaseError`) is caught,
logged, and the loop executes `break`, discarding the rest of the batch.
Returns the ingested samples and the number of logged errors. -/
def processDatagrams : RESPProtocolParser → List Datagram → List Nat × Nat
  | _, [] => ([], 0)
  | p, d :: rest =>
      match parse_next p d with
      | (p2, some samples) =>
          let r := processDatagrams p2 rest
          (samples ++ r.1, r.2)
      | (_, none) => ([], 1)

/-- Processing of one received batch: a fresh `RESPProtocolParser` is
created for each batch (main.cpp line 996) before the datagram loop. -/
def processBatch (batch : List Datagram) : List Nat × Nat :=
  processDatagrams freshParser batch

/-- The worker's receive loop over successive batches; each iteration
constructs its own parser, so no parser state flows between batches. -/
def workerIngest : List (List Datagram) → List Nat × Nat
  | [] => ([], 0)
  | b :: rest =>
      let r := processBatch b
      let rs := workerIngest rest
      (r.1 ++ rs.1, r.2 + rs.2)

/-! ## QueryResultsPooler (header in src/unnamed/part_000; behaviour of the
missing implementation file modelled from spec §4.4) -/

/-- Engine status code: success or a non-success code. -/
inductive AkuStatus
  | success
  | failed (code : Nat)
  deriving DecidableEq, Repr

/-- Exceptions thrown by pooler operations used in the wrong state. -/
inductive PoolerErr
  | notStarted
  | alreadyStarted
  deriving DecidableEq, Repr

/-- Modelled from the spec: the `QueryResultsPooler` state machine of
§4.4 (`Created → Started → Draining → Closed`, any state `→ Errored`);
the implementation file of `QueryResultsPooler` is not among the sources,
only its header (src/unnamed/part_000). -/
inductive PoolerState
  | created
  | started
  | draining
  | closed
  | errored
  deriving DecidableEq, Repr

/-- One item produced by the `DbCursor`: a sample, or a non-success
status surfaced by the engine. -/
inductive CursorItem
  | sample (v : Nat)
  | failed (code : Nat)
  deriving DecidableEq, Repr

/-- Modelled from the spec: state of a `QueryResultsPooler` (fields from
the header in src/unnamed/part_000: `query_text_`, `cursor_`, `rdbuf_`,
`error_produced_`); the implementation file is missing from the sources. -/
structure QueryResultsPooler where
  query_text_ : List Char
  cursor_ : List CursorItem
  state_ : PoolerState
  error_ : AkuStatus
  error_produced_ : Bool
  rdbuf_ : List Nat
  deriving DecidableEq, Repr

/-- A `QueryResultsPooler` as constructed by `QueryProcessor::create`:
in state `Created`, with empty query text and read buffer; the cursor
stream it will drain after `start` is `cursor`. -/
def newPooler (cursor : List CursorItem) : QueryResultsPooler :=
  { query_text_ := [], cursor_ := cursor, state_ := .created,
    error_ := .success, error_produced_ := false, rdbuf_ := [] }

/-- Modelled from the spec: `append(data, size)` is legal only in
`Created`, where it accumulates the query text; after `start` it fails
with `AlreadyStarted` (implementation file missing from the sources). -/
def QueryResultsPooler.append (p : QueryResultsPooler) (data : List Char) :
    Except PoolerErr QueryResultsPooler :=
  match p.state_ with
  | .created => .ok { p with query_text_ := p.query_text_ ++ data }
  | _ => .error .alreadyStarted

/-- Modelled from the spec: `start()` parses the accumulated query text,
opens the cursor and transitions `Created → Started`; calling it twice
fails with `AlreadyStarted` (implementation file missing from the
sources). -/
def QueryResultsPooler.start (p : QueryResultsPooler) :
    Except PoolerErr QueryResultsPooler :=
  match p.state_ with
  | .created => .ok { p with state_ := .started }
  | _ => .error .alreadyStarted

/-- What one `read_some` call hands to the HTTP response writer: the
formatted bytes (abstracted to formatted samples), the `complete` flag,
and whether an error report was written into the output by this call. -/
structure ReadSomeOut where
  bytes : List Nat
  complete : Bool
  errorReported : Bool
  deriving DecidableEq, Repr

/-- Modelled from the spec: `read_some` fails with `NotStarted` in
`Created`; once `error_produced_` is set it reports `complete=true`
without repeating the error; on a cursor error it flushes the formatted
bytes, reports the error exactly once and sets `error_produced_`; on
end-of-stream it drains and completes; otherwise it formats the next
sample (implementation file missing from the sources). -/
def QueryResultsPooler.read_some (p : QueryResultsPooler) :
    Except PoolerErr (QueryResultsPooler × ReadSomeOut) :=
  match p.state_ with
  | .created => .error .notStarted
  | _ =>
    if p.error_produced_ then
      .ok (p, { bytes := [], complete := true, errorReported := false })
    else
      match p.cursor_ with
      | [] =>
          .ok ({ p with rdbuf_ := [], state_ := .closed },
               { bytes := p.rdbuf_, complete := true, errorReported := false })
      | .failed code :: rest =>
          .ok ({ p with
                  cursor_ := rest, state_ := .errored,
                  error_ := .failed code, error_produced_ := true },
               { bytes := p.rdbuf_, complete := true, errorReported := true })
      | .sample v :: rest =>
          .ok ({ p with cursor_ := rest, state_ := .draining, rdbuf_ := [] },
               { bytes := p.rdbuf_ ++ [v], complete := false,
                 errorReported := false })

/-- Modelled from the spec: `get_error` exposes the first non-success
status seen from the cursor (implementation file missing from the
sources). -/
def QueryResultsPooler.get_error (p : QueryResultsPooler) : AkuStatus :=
  p.error_

/-- The pooler state after `k` further `read_some` calls (a failing call
leaves the state unchanged). -/
def QueryResultsPooler.read_some_n (p : QueryResultsPooler) :
    Nat → QueryResultsPooler
  | 0 => p
  | k + 1 =>
      match p.read_some with
      | .ok (q, _) => q.read_some_n k
      | .error _ => p

/-! ## INI configuration files (boost::property_tree::ini_parser semantics)
used by `ConfigFile` (main.cpp lines 116-348) -/

/-- Whitespace trimmed around INI keys and values. -/
def isIniSpace (c : Char) : Bool := c = ' ' ∨ c = '\t' ∨ c = '\r'

/-- Trim whitespace from both ends of a line. -/
def trimChars (l : List Char) : List Char :=
  ((l.dropWhile isIniSpace).reverse.dropWhile isIniSpace).reverse

/-- An INI `[section]` node with its key-value children. -/
structure IniSection where
  name : String
  entries : List (String × String)
  deriving DecidableEq, Repr

/-- The property tree produced by `read_ini`: the root's direct key-value
children (keys before the first section header) and its section
children. -/
structure Ini where
  root : List (String × String)
  sections : List IniSection
  deriving DecidableEq, Repr

/-- First section child with the given name. -/
def Ini.findSection? (c : Ini) (name : String) : Option IniSection :=
  c.sections.find? (fun s => s.name = name)

/-- `conf.find(name) != conf.not_found()` and `conf.count(name) > 0` over
the immediate children (plain keys and sections alike). -/
def Ini.hasChild (c : Ini) (name : String) : Bool :=
  (c.root.find? (fun e => e.1 = name)).isSome ||
    (c.findSection? name).isSome

/-- Split a character list at every dot (the ptree path separator). -/
def splitOnDotAux : List Char → List Char → List (List Char)
  | [], acc => [acc.reverse]
  | '.' :: rest, acc => acc.reverse :: splitOnDotAux rest []
  | c :: rest, acc => splitOnDotAux rest (c :: acc)

/-- `conf.get<std::string>(path)`: resolve a ptree path (components
separated by dots) to the value at that node; `none` models the
`ptree_bad_path` exception. -/
def Ini.get? (c : Ini) (path : String) : Option String :=
  match splitOnDotAux path.data [] with
  | [k] => (c.root.find? (fun e => e.1 = String.mk k)).map Prod.snd
  | [s, k] =>
      (c.findSection? (String.mk s)).bind fun sec =>
        (sec.entries.find? (fun e => e.1 = String.mk k)).map Prod.snd
  | _ => none

/-- `conf.get<std::string>(path, default)`. -/
def Ini.getD (c : Ini) (path dflt : String) : String :=
  (c.get? path).getD dflt

/-- Parse a non-empty all-digit string. -/
def parseNatDigits (l : List Char) : Option Nat :=
  if l ≠ [] ∧ l.all Char.isDigit then some (digitsToNat l) else none

/-- Parse a decimal integer with optional leading minus. -/
def parseIntChars (l : List Char) : Option Int :=
  match l with
  | '-' :: rest => (parseNatDigits rest).map (fun n => -(n : Int))
  | _ => (parseNatDigits l).map (fun n => (n : Int))

/-- `conf.get<unsigned short>(path)`: stream conversion of the value,
failing on non-numeric data or overflow. -/
def Ini.get_u16? (c : Ini) (path : String) : Option Nat :=
  (c.get? path).bind fun v =>
    (parseNatDigits v.data).bind fun n =>
      if n ≤ 65535 then some n else none

/-- `conf.get<int>(path)` / `conf.get<i32>(path)`. -/
def Ini.get_i32? (c : Ini) (path : String) : Option Int :=
  (c.get? path).bind fun v =>
    (parseIntChars v.data).bind fun n =>
      if -2147483648 ≤ n ∧ n ≤ 2147483647 then some n else none

/-- `conf.get<int>(path, default)`: the default is used when the node is
missing or its data does not convert. -/
def Ini.get_i32D (c : Ini) (path : String) (dflt : Int) : Int :=
  (c.get_i32? path).getD dflt

/-- State of the line-by-line INI reader: the tree built so far and the
name of the currently open section (`none` while still at root level). -/
structure IniReadState where
  tree : Ini
  current : Option String
  deriving DecidableEq, Repr

/-- Characters of a section header before the closing bracket; `none`
when the closing bracket is missing (`read_ini` reports an error). -/
def takeUntilRBracket : List Char → Option (List Char)
  | [] => none
  | ']' :: _ => some []
  | c :: rest => (takeUntilRBracket rest).map (fun r => c :: r)

/-- Split a line at the first equals sign; `none` when there is none
(`read_ini` reports "'=' character not found in line"). -/
def splitAtEqChar : List Char → Option (List Char × List Char)
  | [] => none
  | '=' :: rest => some ([], rest)
  | c :: rest => (splitAtEqChar rest).map (fun pr => (c :: pr.1, pr.2))

/-- Add a key-value pair to the current section (or the root), rejecting
duplicate key names as `read_ini` does. -/
def IniReadState.addEntry (st : IniReadState) (k v : String) :
    Except String IniReadState :=
  match st.current with
  | none =>
      if (st.tree.root.find? (fun e => e.1 = k)).isSome then
        .error "duplicate key name"
      else
        .ok { st with tree :=
              { st.tree with root := st.tree.root ++ [(k, v)] } }
  | some sec =>
      match addToSection st.tree.sections sec k v with
      | some ss => .ok { st with tree := { st.tree with sections := ss } }
      | none => .error "duplicate key name"
where
  addToSection : List IniSection → String → String → String →
      Option (List IniSection)
  | [], _, _, _ => none
  | s :: rest, name, k, v =>
      if s.name = name then
        if (s.entries.find? (fun e => e.1 = k)).isSome then none
        else some ({ s with entries := s.entries ++ [(k, v)] } :: rest)
      else (addToSection rest name k v).map (fun r => s :: r)

/-- `read_ini`, one line: trim; skip blank lines and `;`/`#` comments;
a bracketed header opens a new section (duplicate sections rejected);
anything else must be `key=value`. -/
def readIniLine (st : IniReadState) (line : String) :
    Except String IniReadState :=
  match trimChars line.data with
  | [] => .ok st
  | c :: rest =>
    if c = ';' ∨ c = '#' then .ok st
    else if c = '[' then
      match takeUntilRBracket rest with
      | none => .error "unmatched section bracket"
      | some inside =>
          let name := String.mk (trimChars inside)
          if (st.tree.findSection? name).isSome then
            .error "duplicate section name"
          else
            .ok { tree := { st.tree with sections :=
                    st.tree.sections ++ [{ name := name, entries := [] }] },
                  current := some name }
    else
      match splitAtEqChar (c :: rest) with
      | none => .error "unmatched key"
      | some (k, v) =>
          st.addEntry (String.mk (trimChars k)) (String.mk (trimChars v))

/-- `boost::property_tree::ini_parser::read_ini` over the lines of the
file (the file text split at newlines). -/
def read_ini (ls : List String) : Except String Ini :=
  (ls.foldlM readIniLine
    { tree := { root := [], sections := [] }, current := none }).map
    (fun st => st.tree)

/-! ## Default configuration (DEFAULT_CONFIG / WAL_CONFIG, main.cpp lines
39-113) and ConfigFile::init_config / init_exp_config (lines 129-157) -/

/-- The lines of `boost::str(boost::format(DEFAULT_CONFIG) % nvolumes)`:
the `DEFAULT_CONFIG` raw string of main.cpp lines 39-96, with `%1%`
replaced by the volume count and `%%` unescaped to `%`, split at
newlines. -/
def DEFAULT_CONFIG_lines (nvolumes : String) : List String :=
  ["# akumulid configuration file (generated automatically).",
   "",
   "# path to database files.  Default values is  ~/.akumuli.",
   "path=~/.akumuli",
   "",
   "# Number of volumes used  to store data.  Each volume  is",
   "# 4Gb in size by default and allocated beforehand. To change number",
   "# of  volumes  they  should  change  `nvolumes`  value in",
   "# configuration and restart daemon.",
   "nvolumes=" ++ nvolumes,
   "",
   "# Size of the individual volume. You can use MB or GB suffix.",
   "# Default value is 4GB (if value is not set).",
   "volume_size=4GB",
   "",
   "",
   "# HTTP API endpoint configuration",
   "",
   "[HTTP]",
   "# port number",
   "port=8181",
   "",
   "",
   "# TCP ingestion server config (delete to disable)",
   "",
   "[TCP]",
   "# port number",
   "port=8282",
   "# worker pool size (0 means that the size of the pool will be chosen automatically)",
   "pool_size=0",
   "",
   "",
   "# UDP ingestion server config (delete to disable)",
   "",
   "[UDP]",
   "# port number",
   "port=8383",
   "# worker pool size",
   "pool_size=1",
   "",
   "# OpenTSDB telnet-style data connection enabled (remove this section to disable).",
   "",
   "[OpenTSDB]",
   "# port number",
   "port=4242",
   "",
   "",
   "# Logging configuration",
   "# This is just a log4cxx configuration without any modifications",
   "",
   "log4j.rootLogger=all, file",
   "log4j.appender.file=org.apache.log4j.DailyRollingFileAppender",
   "log4j.appender.file.layout=org.apache.log4j.PatternLayout",
   "log4j.appender.file.layout.ConversionPattern=%d\x7byyyy-MM-dd HH:mm:ss,SSS\x7d [%t] %c [%p] %m%n",
   "log4j.appender.file.filename=/tmp/akumuli.log",
   "log4j.appender.file.datePattern='.'yyyy-MM-dd",
   ""]

/-- The lines of the `WAL_CONFIG` raw string (main.cpp lines 99-113). -/
def WAL_CONFIG_lines : List String :=
  ["# Write-Ahead-Log section (delete to disable)",
   "",
   "[WAL]",
   "# WAL location",
   "path=~/.akumuli",
   "",
   "# Max volume size. Log records are added until file size",
   "# will exced configured value.",
   "volume_size=256MB",
   "",
   "# Number of log volumes to keep on disk per CPU core. E.g. with `volume_size` = 256MB",
   "# and `nvolumes` = 4 and 4 CPUs WAL will use 4GB at most (4*4*256MB).",
   "nvolumes=4",
   ""]

/-- The lines written by `ConfigFile::init_config` (main.cpp lines
134-141) once past the existence check: the formatted `DEFAULT_CONFIG`
with `nvolumes = 4` plus `std::endl`, followed (unless WAL is disabled)
by `WAL_CONFIG` plus `std::endl`. -/
def init_config_lines (disable_wal : Bool) : List String :=
  if disable_wal then DEFAULT_CONFIG_lines "4" ++ [""]
  else DEFAULT_CONFIG_lines "4" ++ WAL_CONFIG_lines ++ [""]

/-- The lines written by `ConfigFile::init_exp_config` (main.cpp lines
149-156): the same with `nvolumes = 0`. -/
def init_exp_config_lines (disable_wal : Bool) : List String :=
  if disable_wal then DEFAULT_CONFIG_lines "0" ++ [""]
  else DEFAULT_CONFIG_lines "0" ++ WAL_CONFIG_lines ++ [""]

/-- `ConfigFile::init_config` (main.cpp lines 129-142) over an abstract
filesystem (the list of existing paths): throws "configuration file
already exists" when `path` exists, otherwise creates the file and
returns the updated filesystem with the written lines. -/
def init_config (fs : List String) (path : String) (disable_wal : Bool) :
    Except String (List String × List String) :=
  if path ∈ fs then .error "configuration file already exists"
  else .ok (fs ++ [path], init_config_lines disable_wal)

/-- `ConfigFile::init_exp_config` (main.cpp lines 144-157), likewise. -/
def init_exp_config (fs : List String) (path : String)
    (disable_wal : Bool) : Except String (List String × List String) :=
  if path ∈ fs then .error "configuration file already exists"
  else .ok (fs ++ [path], init_exp_config_lines disable_wal)

/-- `ConfigFile::get_volume_size` (main.cpp lines 240-243):
`get_memory_size(conf.get<std::string>("volume_size", "4GB"))`. -/
def get_volume_size (conf : Ini) : MemSizeResult :=
  get_memory_size (conf.getD "volume_size" "4GB")

/-- `ConfigFile::get_nvolumes` (main.cpp lines 198-200):
`conf.get<i32>("nvolumes")` (`none` models the ptree exception). -/
def get_nvolumes (conf : Ini) : Option Int :=
  conf.get_i32? "nvolumes"

/-- The `--init` / `--init-expandable` handling of `main` (main.cpp lines
763-781) together with its exception handler (lines 830-840): on success
print the `**OK**` message and exit `EXIT_SUCCESS`; an exception prints
`**FAILURE**` and exits `EXIT_FAILURE`.  Returns (exit code, console
messages, resulting filesystem). -/
def main_init (fs : List String) (path : String) (disable_wal : Bool)
    (expandable : Bool) : Nat × List String × List String :=
  match (if expandable then init_exp_config fs path disable_wal
         else init_config fs path disable_wal) with
  | .ok (fs2, _) =>
      (0, ["**OK** configuration file created at: `" ++ path ++ "`"], fs2)
  | .error e => (1, ["**FAILURE** " ++ e], fs)

/-! ## WAL settings and cmd_run_server (main.cpp lines 245-262, 494-582,
708-843) -/

/-- Outcome of a C++ computation: a value, a thrown exception (carrying
`what()`), or undefined behaviour. -/
inductive CppResult (α : Type)
  | ok (val : α)
  | thrown (what : String)
  | undefined
  deriving DecidableEq, Repr

instance : Monad CppResult where
  pure := .ok
  bind m f :=
    match m with
    | .ok a => f a
    | .thrown e => .thrown e
    | .undefined => .undefined

/-- `WALSettings` (path, volume count, volume size; `{}` zero-initialises
every field, meaning WAL disabled). -/
structure WALSettings where
  path : String := ""
  nvolumes : Int := 0
  volume_size_bytes : Int := 0
  deriving DecidableEq, Repr

/-- `static_cast<int>` of a `u64` value: truncation to 32 bits,
two's complement. -/
def int32_of_u64 (n : Nat) : Int :=
  let m := n % 4294967296
  if m < 2147483648 then (m : Int) else (m : Int) - 4294967296

/-- `ConfigFile::expand_path` runs `wordexp` shell expansion on the path;
for the plain absolute paths considered here it is the identity. -/
def expand_path (s : String) : String := s

/-- `ConfigFile::get_wal_settings` (main.cpp lines 245-262): with a [WAL]
section present it expands `WAL.path` (default "") and throws
"WAL.path doesn't exist" when that path is not on the filesystem; then it
reads `WAL.nvolumes` (default 0) and decodes `WAL.volume_size` (default
"0") through `get_memory_size`, truncating the byte count with
`static_cast<int>`.  Without a [WAL] section the zero settings are
returned. -/
def get_wal_settings (fs : List String) (conf : Ini) :
    CppResult WALSettings :=
  if conf.hasChild "WAL" then
    let path := expand_path (conf.getD "WAL.path" "")
    if path ∈ fs then
      match get_memory_size (conf.getD "WAL.volume_size" "0") with
      | .ok bytes =>
          .ok { path := path,
                nvolumes := conf.get_i32D "WAL.nvolumes" 0,
                volume_size_bytes := int32_of_u64 bytes }
      | .decodeError =>
          .thrown ("can't decode volume size: `" ++
            conf.getD "WAL.volume_size" "0" ++ "`")
      | .undefinedBack => .undefined
    else .thrown "WAL.path doesn't exist"
  else .ok {}

/-- `conf.get<unsigned short>(path)` as a C++ computation (a missing node
or bad data throws a ptree exception). -/
def requireKeyU16 (conf : Ini) (path : String) : CppResult Nat :=
  match conf.get_u16? path with
  | some n => .ok n
  | none => .thrown ("invalid config key " ++ path)

/-- `conf.get<int>(path)` as a C++ computation. -/
def requireKeyI32 (conf : Ini) (path : String) : CppResult Int :=
  match conf.get_i32? path with
  | some n => .ok n
  | none => .thrown ("invalid config key " ++ path)

/-- `ConfigFile::get_http_server` (main.cpp lines 264-281): reads
`HTTP.port`; `nworkers` is -1.  (Endpoints play no part in the claims
modelled here, so only `nworkers` is retained.) -/
def get_http_server_nworkers (conf : Ini) : CppResult Int := do
  let _ ← requireKeyU16 conf "HTTP.port"
  pure (-1)

/-- `ConfigFile::get_tcp_server` (main.cpp lines 302-332): reads
`TCP.port`, the optional `OpenTSDB.port`, and `TCP.pool_size` as
`nworkers`. -/
def get_tcp_server_nworkers (conf : Ini) : CppResult Int := do
  let _ ← requireKeyU16 conf "TCP.port"
  let _ ←
    if conf.hasChild "OpenTSDB" then requireKeyU16 conf "OpenTSDB.port"
    else pure 0
  requireKeyI32 conf "TCP.pool_size"

/-- `ConfigFile::get_udp_server` (main.cpp lines 283-300): reads
`UDP.port` and `UDP.pool_size` as `nworkers`. -/
def get_udp_server_nworkers (conf : Ini) : CppResult Int := do
  let _ ← requireKeyU16 conf "UDP.port"
  requireKeyI32 conf "UDP.pool_size"

/-- `ConfigFile::get_server_settings` (main.cpp lines 334-347): for each
of the HTTP, TCP, UDP sections present — in the alphabetical iteration
order of the `std::map` — build that server's settings; only the
`nworkers` values are retained here. -/
def get_server_settings_nworkers (conf : Ini) : CppResult (List Int) := do
  let a ← if conf.hasChild "HTTP" then do
            let x ← get_http_server_nworkers conf
            pure [x]
          else pure []
  let b ← if conf.hasChild "TCP" then do
            let x ← get_tcp_server_nworkers conf
            pure [x]
          else pure []
  let c ← if conf.hasChild "UDP" then do
            let x ← get_udp_server_nworkers conf
            pure [x]
          else pure []
  pure (a ++ b ++ c)

/-- The `**ERROR**` message printed for an out-of-bounds `WAL.nvolumes`
(main.cpp lines 520-525). -/
def wal_nvolumes_error (n : Int) : String :=
  "**ERROR** invalid configuration value WAL.nvolumes = " ++ toString n ++
    ", value should not exceed 1000 or be equal to 1"

/-- The `**ERROR**` message printed for an out-of-bounds
`WAL.volume_size` (main.cpp lines 527-533). -/
def wal_volume_size_error (n : Int) : String :=
  "**ERROR** invalid configuration value WAL.volume_size = " ++
    toString n ++ ", size should be in 1MB-1GB range"

/-- The `**ERROR**` message printed for a missing WAL directory
(main.cpp lines 535-540). -/
def wal_path_error (p : String) : String :=
  "**ERROR** invalid configuration value WAL.path = " ++ p ++
    ", directory doesn't exist"

/-- The `**ERROR**` message printed when the database manifest is absent
(main.cpp lines 506-509). -/
def db_missing_error (path : String) : String :=
  "**ERROR** database file doesn't exists at " ++ path

/-- What `cmd_run_server` did: the `**ERROR**` messages printed (before
`cli_format`), whether the WAL parameters were handed to the engine, and
whether the servers were started. -/
structure RunResult where
  messages : List String
  wal_enabled : Bool
  servers_started : Bool
  deriving DecidableEq, Repr

/-- `cmd_run_server` (main.cpp lines 497-582): read the configuration
(`path`, server settings, WAL settings — any of which may throw); if the
`db.akumuli` manifest is absent print the `**ERROR**` message and return
WITHOUT starting servers (and without throwing); otherwise validate the
WAL bounds — each violation prints an `**ERROR**` naming the setting and
clears `use_wal` — and start the servers.  (The engine connection and the
signal-handler wait are outside the modelled scope.) -/
def cmd_run_server (fs : List String) (conf : Ini) : CppResult RunResult := do
  let path ←
    match conf.get? "path" with
    | some p => pure (expand_path p)
    | none => CppResult.thrown "invalid config key path"
  let _ ← get_server_settings_nworkers conf
  let wal ← get_wal_settings fs conf
  let full_path := path ++ "/db.akumuli"
  if full_path ∈ fs then
    if wal.path ≠ "" ∧ wal.nvolumes ≠ 0 ∧ wal.volume_size_bytes ≠ 0 then
      let m1 := if wal.nvolumes < 0 ∨ wal.nvolumes > 1000 ∨ wal.nvolumes = 1
                then [wal_nvolumes_error wal.nvolumes] else []
      let m2 := if wal.volume_size_bytes < 1048576 ∨
                   wal.volume_size_bytes > 1073741824
                then [wal_volume_size_error wal.volume_size_bytes] else []
      let m3 := if wal.path ∈ fs then [] else [wal_path_error wal.path]
      pure { messages := m1 ++ m2 ++ m3,
             wal_enabled := m1.isEmpty && m2.isEmpty && m3.isEmpty,
             servers_started := true }
    else
      pure { messages := [], wal_enabled := false, servers_started := true }
  else
    pure { messages := [db_missing_error path],
           wal_enabled := false, servers_started := false }

/-- `main` in server mode, i.e. with no command flag (main.cpp lines
708-843): `cmd_run_server` is called; if it returns, control reaches the
final `exit(EXIT_SUCCESS)`; an escaping exception prints `**FAILURE**`
and exits `EXIT_FAILURE`.  Returns (exit code, console messages). -/
def main_run_server (fs : List String) (conf : Ini) :
    CppResult (Nat × List String) :=
  match cmd_run_server fs conf with
  | .ok r => .ok (0, r.messages)
  | .thrown e => .ok (1, ["**FAILURE** " ++ e])
  | .undefined => .undefined

/-! ## UDP server stop protocol (UdpServer::stop / UdpServer::worker,
main.cpp lines 863-1034), as an interleaving transition system -/

/-- A datagram in a received batch: the synthetic one-byte wake datagram
sent by `stop()` to the server's own endpoint (line 912), or ordinary
client data. -/
inductive UdpPacket
  | wake
  | data (payload : List Nat)
  deriving DecidableEq, Repr

/-- Control location of a worker thread in `UdpServer::worker`:
`recv` — about to call (or blocked in) the batch receive (line 978);
`check` — returned from the receive with a batch, about to test `stop_`
(line 990); `parse` — the flag was clear, processing the batch with a
fresh parser (lines 994-1027); `atBarrier` — left the receive loop,
waiting at `stop_barrier_.wait()` (line 1033); `done` — past the
barrier, thread exiting. -/
inductive WorkerPhase
  | recv
  | check (batch : List UdpPacket)
  | parse (batch : List UdpPacket)
  | atBarrier
  | done
  deriving DecidableEq, Repr

/-- Control location of the thread executing `UdpServer::stop` (lines
908-916): before the call; after `stop_.store(1)` (line 911); after
`sendByteToLocalhost(endpoint_)` (line 912); waiting at
`stop_barrier_.wait()` (line 913); after `close(sockfd_)` (line 915). -/
inductive StopPhase
  | idle
  | flagSet
  | wakeSent
  | atBarrier
  | closed
  deriving DecidableEq, Repr

/-- Global state of a UDP server with `n` workers: the atomic `stop_`
flag, whether the wake datagram has been handed to the network, whether
`close(sockfd_)` has executed, the stop thread's location and each
worker's location. -/
structure UdpSys (n : Nat) where
  stopFlag : Bool
  wakeSent : Bool
  socketClosed : Bool
  stopPh : StopPhase
  workers : Fin n → WorkerPhase

/-- State right after `UdpServer::start` has returned: every worker is
inside its receive loop, `stop_` is 0, the socket is open. -/
def udpInit (n : Nat) : UdpSys n :=
  { stopFlag := false, wakeSent := false, socketClosed := false,
    stopPh := .idle, workers := fun _ => .recv }

/-- A worker phase in which the worker has left its receive loop. -/
def leftRecvLoop (ph : WorkerPhase) : Prop :=
  ph = .atBarrier ∨ ph = .done

/-- One interleaving step of the system.  The stop thread advances
through `stop()` in program order: store the flag (line 911), send the
wake byte (line 912), arrive at the stop barrier (line 913), and — only
once every worker has also arrived, per `N+1`-barrier semantics — close
the socket (line 915).  A worker advances through its receive loop:
receive a batch (which can contain the wake datagram only after it has
been sent; client data can arrive at any time), or fail in the receive
and fall to the barrier (lines 980-988); test `stop_` (line 990) and
either break to the barrier or parse the batch; finish the batch (or
abort on an escaping exception) and continue; pass the stop barrier
after the stop thread and all workers have arrived. -/
inductive UdpStep (n : Nat) : UdpSys n → UdpSys n → Prop
  | setFlag (s : UdpSys n) (h : s.stopPh = .idle) :
      UdpStep n s { s with stopFlag := true, stopPh := .flagSet }
  | sendWake (s : UdpSys n) (h : s.stopPh = .flagSet) :
      UdpStep n s { s with wakeSent := true, stopPh := .wakeSent }
  | stopArrive (s : UdpSys n) (h : s.stopPh = .wakeSent) :
      UdpStep n s { s with stopPh := .atBarrier }
  | closeSocket (s : UdpSys n) (h : s.stopPh = .atBarrier)
      (hall : ∀ w, leftRecvLoop (s.workers w)) :
      UdpStep n s { s with stopPh := .closed, socketClosed := true }
  | recvBatch (s : UdpSys n) (w : Fin n) (batch : List UdpPacket)
      (h : s.workers w = .recv)
      (hwake : UdpPacket.wake ∈ batch → s.wakeSent = true) :
      UdpStep n s
        { s with workers := Function.update s.workers w (.check batch) }
  | recvFail (s : UdpSys n) (w : Fin n) (h : s.workers w = .recv) :
      UdpStep n s
        { s with workers := Function.update s.workers w .atBarrier }
  | checkStopSet (s : UdpSys n) (w : Fin n) (batch : List UdpPacket)
      (h : s.workers w = .check batch) (hf : s.stopFlag = true) :
      UdpStep n s
        { s with workers := Function.update s.workers w .atBarrier }
  | checkStopClear (s : UdpSys n) (w : Fin n) (batch : List UdpPacket)
      (h : s.workers w = .check batch) (hf : s.stopFlag = false) :
      UdpStep n s
        { s with workers := Function.update s.workers w (.parse batch) }
  | finishBatch (s : UdpSys n) (w : Fin n) (batch : List UdpPacket)
      (h : s.workers w = .parse batch) :
      UdpStep n s { s with workers := Function.update s.workers w .recv }
  | parseFail (s : UdpSys n) (w : Fin n) (batch : List UdpPacket)
      (h : s.workers w = .parse batch) :
      UdpStep n s
        { s with workers := Function.update s.workers w .atBarrier }
  | workerPassBarrier (s : UdpSys n) (w : Fin n)
      (h : s.workers w = .atBarrier)
      (hstop : s.stopPh = .atBarrier ∨ s.stopPh = .closed)
      (hall : ∀ v, leftRecvLoop (s.workers v)) :
      UdpStep n s { s with workers := Function.update s.workers w .done }

/-- States reachable from the post-start state by interleaving steps. -/
inductive UdpReachable (n : Nat) : UdpSys n → Prop
  | init : UdpReachable n (udpInit n)
  | step (s t : UdpSys n) :
      UdpReachable n s → UdpStep n s t → UdpReachable n t

/-- The inductive invariant of the stop protocol: the wake datagram is
sent only after the flag is stored; a batch held at the flag check can
contain the wake datagram only if it was sent; a batch being parsed
never contains the wake datagram; and a closed socket means the stop
thread passed the barrier and every worker left its receive loop. -/
def UdpInv {n : Nat} (s : UdpSys n) : Prop :=
  (s.stopPh ≠ .idle → s.stopFlag = true) ∧
  (s.wakeSent = true → s.stopFlag = true) ∧
  (∀ w b, s.workers w = .check b → UdpPacket.wake ∈ b →
    s.wakeSent = true) ∧
  (∀ w b, s.workers w = .parse b → UdpPacket.wake ∉ b) ∧
  (s.socketClosed = true → s.stopPh = .closed) ∧
  (s.socketClosed = true → ∀ w, leftRecvLoop (s.workers w))

end Akumuli

namespace Akumuli

/-- Samples ingested from a batch of well-formed datagrams before a
malformed one: everything before the malformed datagram, nothing after. -/
theorem processDatagrams_valid_then_malformed (pre : List (List Nat))
    (tail : List Datagram) :
    processDatagrams freshParser (pre.map Datagram.valid ++
      Datagram.malformed :: tail) = (pre.flatten, 1) := by
  induction pre with
  | nil => rfl
  | cons s rest ih =>
      simp only [List.map_cons, List.cons_append, List.flatten,
        processDatagrams, parse_next, freshParser]
      simp only [processDatagrams, parse_next, freshParser] at ih
      simp [ih]

/-- A batch consisting only of well-formed datagrams is fully ingested
with no logged error. -/
theorem processDatagrams_all_valid (l : List (List Nat)) :
    processDatagrams freshParser (l.map Datagram.valid) = (l.flatten, 0) := by
  induction l with
  | nil => rfl
  | cons s rest ih =>
      simp only [List.map_cons, List.flatten, processDatagrams, parse_next,
        freshParser]
      simp only [processDatagrams, parse_next, freshParser] at ih
      simp [ih]

end Akumuli

/-- C2 counterexample: in a batch holding a malformed datagram followed by
a valid datagram carrying sample 42, the error is caught and logged but
the valid datagram is NOT ingested — the catch handler executes `break`,
discarding the rest of the batch — contradicting the claim that the valid
datagram in the same batch is still ingested. -/
theorem C2_batch_counterexample :
    Akumuli.workerIngest [[Akumuli.Datagram.malformed,
      Akumuli.Datagram.valid [42]]] = ([], 1) ∧
    ¬ (42 ∈ (Akumuli.workerIngest [[Akumuli.Datagram.malformed,
      Akumuli.Datagram.valid [42]]]).1) := by
  decide

/-- C2 (amended): the parse error on a malformed datagram is caught and
logged exactly once, the malformed datagram and every later datagram of
the same batch are discarded (samples of valid datagrams preceding it are
ingested), and subsequent batches are processed by a freshly created
parser, so they are unaffected: their contribution equals their isolated
processing, and an all-valid batch is always fully ingested. -/
theorem C2_batch_error_isolated (pre : List (List Nat))
    (tail : List Akumuli.Datagram) (rest : List (List Akumuli.Datagram)) :
    Akumuli.workerIngest ((pre.map Akumuli.Datagram.valid ++
        Akumuli.Datagram.malformed :: tail) :: rest)
      = (pre.flatten ++ (Akumuli.workerIngest rest).1,
         1 + (Akumuli.workerIngest rest).2) ∧
    Akumuli.workerIngest (pre.map Akumuli.Datagram.valid :: rest)
      = (pre.flatten ++ (Akumuli.workerIngest rest).1,
         (Akumuli.workerIngest rest).2) := by
  constructor
  · simp [Akumuli.workerIngest, Akumuli.processBatch,
      Akumuli.processDatagrams_valid_then_malformed]
  · simp [Akumuli.workerIngest, Akumuli.processBatch,
      Akumuli.processDatagrams_all_valid]

/-- C7: `ConfigFile::get_memory_size` maps "4GB" to 4·2^30, "256MB" to
256·2^20, "1024" to 1024 and "4gb" to 4·2^30 (suffix case-insensitive),
and reports a decode error for "4XB" and "GB". -/
theorem C7_get_memory_size_values :
    Akumuli.get_memory_size "4GB" = .ok (4 * 1073741824) ∧
    Akumuli.get_memory_size "256MB" = .ok (256 * 1048576) ∧
    Akumuli.get_memory_size "1024" = .ok 1024 ∧
    Akumuli.get_memory_size "4gb" = .ok (4 * 1073741824) ∧
    Akumuli.get_memory_size "4XB" = .decodeError ∧
    Akumuli.get_memory_size "GB" = .decodeError := by
  decide

/-- C9: the claim says `get_memory_size` never accesses the string out of
bounds; in fact on input "" (and on "B", after the `B` is popped) the code
calls `std::string::back()` on an empty string, which is an out-of-bounds
access (undefined behaviour). -/
theorem C9_get_memory_size_empty_back :
    Akumuli.get_memory_size "" = .undefinedBack ∧
    Akumuli.get_memory_size "B" = .undefinedBack := by
  decide

namespace Akumuli

/-- A pooler whose `read_some` returns itself keeps returning itself. -/
theorem read_some_n_fixed (q : QueryResultsPooler) (o : ReadSomeOut)
    (h : q.read_some = .ok (q, o)) : ∀ k, q.read_some_n k = q
  | 0 => rfl
  | k + 1 => by
      simp [QueryResultsPooler.read_some_n, h, read_some_n_fixed q o h k]

end Akumuli

/-- C3: a `QueryResultsPooler` respects the Created/Started state machine:
`read_some` while still in `Created` fails with `NotStarted`, and after a
successful `start`, `append` and a second `start` fail with
`AlreadyStarted`. -/
theorem C3_pooler_state_machine (p q : Akumuli.QueryResultsPooler)
    (data : List Char) (hc : p.state_ = .created) (hs : p.start = .ok q) :
    p.read_some = .error .notStarted ∧
    q.append data = .error .alreadyStarted ∧
    q.start = .error .alreadyStarted := by
  rw [Akumuli.QueryResultsPooler.start, hc] at hs
  have hq : q = { p with state_ := .started } := by
    cases hs
    rfl
  subst hq
  refine ⟨?_, ?_, ?_⟩
  · rw [Akumuli.QueryResultsPooler.read_some, hc]
  · rfl
  · rfl

/-- C3 witness: a freshly created pooler rejects `read_some` with
`NotStarted`; after `start`, `append` and `start` are rejected with
`AlreadyStarted`. -/
theorem C3_pooler_state_machine_witness :
    (Akumuli.newPooler []).read_some = .error .notStarted ∧
    Akumuli.QueryResultsPooler.append
      { query_text_ := [], cursor_ := [], state_ := .started,
        error_ := .success, error_produced_ := false, rdbuf_ := [] } ['x']
      = .error .alreadyStarted ∧
    Akumuli.QueryResultsPooler.start
      { query_text_ := [], cursor_ := [], state_ := .started,
        error_ := .success, error_produced_ := false, rdbuf_ := [] }
      = .error .alreadyStarted :=
  C3_pooler_state_machine (Akumuli.newPooler [])
    { query_text_ := [], cursor_ := [], state_ := .started,
      error_ := .success, error_produced_ := false, rdbuf_ := [] }
    ['x'] rfl rfl

/-- C4: when the cursor surfaces a non-success status, the `read_some`
call that delivers it flushes the already-formatted bytes, reports the
error (exactly this call has `errorReported = true`) and sets
`error_produced_`; every subsequent `read_some` reports `complete = true`
without repeating the error, and `get_error` keeps returning the original
non-success status after any number of further calls. -/
theorem C4_error_reported_once (p : Akumuli.QueryResultsPooler)
    (code : Nat) (rest : List Akumuli.CursorItem) (k : Nat)
    (hst : p.state_ = .started ∨ p.state_ = .draining)
    (hep : p.error_produced_ = false)
    (hcur : p.cursor_ = .failed code :: rest) :
    ∃ q, p.read_some = .ok (q,
        { bytes := p.rdbuf_, complete := true, errorReported := true }) ∧
      q.error_produced_ = true ∧
      q.get_error = .failed code ∧
      q.read_some = .ok (q,
        { bytes := [], complete := true, errorReported := false }) ∧
      q.read_some_n k = q ∧
      (q.read_some_n k).get_error = .failed code := by
  refine ⟨{ p with
             cursor_ := rest, state_ := .errored,
             error_ := .failed code, error_produced_ := true },
          ?_, rfl, rfl, ?_, ?_, ?_⟩
  · rcases hst with h | h <;>
      rw [Akumuli.QueryResultsPooler.read_some, h] <;>
      simp [hep, hcur]
  · rw [Akumuli.QueryResultsPooler.read_some]
    rfl
  · exact Akumuli.read_some_n_fixed _ _ (by
      rw [Akumuli.QueryResultsPooler.read_some]; rfl) k
  · rw [Akumuli.read_some_n_fixed _
      { bytes := [], complete := true, errorReported := false } (by
        rw [Akumuli.QueryResultsPooler.read_some]; rfl) k]
    rfl

/-- C4 witness: a started pooler whose cursor surfaces status 7 delivers
the error once and keeps reporting `complete=true` and `get_error = 7`
from then on. -/
theorem C4_error_reported_once_witness :
    ∃ q, Akumuli.QueryResultsPooler.read_some
        { query_text_ := [], cursor_ := [Akumuli.CursorItem.failed 7],
          state_ := .started, error_ := .success,
          error_produced_ := false, rdbuf_ := [] }
      = .ok (q, { bytes := [], complete := true, errorReported := true }) ∧
      q.error_produced_ = true ∧
      q.get_error = .failed 7 ∧
      q.read_some = .ok (q,
        { bytes := [], complete := true, errorReported := false }) ∧
      q.read_some_n 3 = q ∧
      (q.read_some_n 3).get_error = .failed 7 :=
  C4_error_reported_once
    { query_text_ := [], cursor_ := [Akumuli.CursorItem.failed 7],
      state_ := .started, error_ := .success,
      error_produced_ := false, rdbuf_ := [] }
    7 [] 3 (Or.inl rfl) rfl rfl

/-- C8: generating the default configuration with `init_config`, parsing
it back with the INI reader, and extracting the settings yields the
documented defaults: HTTP.port 8181, TCP.port 8282, UDP.port 8383,
OpenTSDB.port 4242, volume_size 4 GiB and nvolumes 4. -/
theorem C8_default_config_roundtrip :
    (Akumuli.read_ini (Akumuli.init_config_lines false)).map (fun c =>
      (c.get_u16? "HTTP.port", c.get_u16? "TCP.port", c.get_u16? "UDP.port",
       c.get_u16? "OpenTSDB.port", Akumuli.get_volume_size c,
       Akumuli.get_nvolumes c))
    = .ok (some 8181, some 8282, some 8383, some 4242,
           .ok 4294967296, some 4) := by
  rfl

namespace Akumuli

@[simp] theorem cpp_bind_ok {α β : Type} (a : α) (f : α → CppResult β) :
    (CppResult.ok a >>= f) = f a := rfl

@[simp] theorem cpp_bind_thrown {α β : Type} (e : String)
    (f : α → CppResult β) : (CppResult.thrown e >>= f) = .thrown e := rfl

@[simp] theorem cpp_pure_eq_ok {α : Type} (a : α) :
    (pure a : CppResult α) = .ok a := rfl

end Akumuli

/-- C10: `init_config` and `init_exp_config` raise an error when a
configuration file already exists at the target path, so `--init` and
`--init-expandable` never overwrite an existing configuration file (the
filesystem is unchanged) and the process exits non-zero with the
`**FAILURE**` message instead of the success message. -/
theorem C10_init_refuses_overwrite (fs : List String) (path : String)
    (dw : Bool) (h : path ∈ fs) :
    Akumuli.main_init fs path dw false
      = (1, ["**FAILURE** configuration file already exists"], fs) ∧
    Akumuli.main_init fs path dw true
      = (1, ["**FAILURE** configuration file already exists"], fs) := by
  constructor <;>
    simp [Akumuli.main_init, Akumuli.init_config, Akumuli.init_exp_config, h]

/-- C10 witness: `--init` (and `--init-expandable`) on an existing
`/root/.akumulid` exits 1 and leaves the filesystem unchanged. -/
theorem C10_init_refuses_overwrite_witness :
    Akumuli.main_init ["/root/.akumulid"] "/root/.akumulid" false false
      = (1, ["**FAILURE** configuration file already exists"],
         ["/root/.akumulid"]) ∧
    Akumuli.main_init ["/root/.akumulid"] "/root/.akumulid" false true
      = (1, ["**FAILURE** configuration file already exists"],
         ["/root/.akumulid"]) :=
  C10_init_refuses_overwrite ["/root/.akumulid"] "/root/.akumulid" false
    (by decide)

/-- C5 counterexample: with configuration `path=/data` and no
`/data/db.akumuli` manifest on disk, `cmd_run_server` prints the
`**ERROR**` message and returns normally instead of throwing, so `main`
falls through to its final `exit(EXIT_SUCCESS)`: the process exit code is
0, not non-zero as claimed. -/
theorem C5_exit_code_counterexample :
    Akumuli.cmd_run_server ["/data"]
        { root := [("path", "/data")], sections := [] }
      = .ok { messages := [Akumuli.db_missing_error "/data"],
              wal_enabled := false, servers_started := false } ∧
    Akumuli.main_run_server ["/data"]
        { root := [("path", "/data")], sections := [] }
      = .ok (0, [Akumuli.db_missing_error "/data"]) := by
  constructor <;> rfl

/-- C5 (amended): in server mode with the `db.akumuli` manifest absent
from the configured data path, the daemon refuses to start (no server is
started) and reports the `**ERROR**` message, but the process exits with
code 0 (`EXIT_SUCCESS`), because `cmd_run_server` returns normally after
printing the error. -/
theorem C5_missing_manifest_exits_zero
    (fs : List String) (conf : Akumuli.Ini) (p : String) (ns : List Int)
    (w : Akumuli.WALSettings)
    (hp : conf.get? "path" = some p)
    (hsrv : Akumuli.get_server_settings_nworkers conf = .ok ns)
    (hwal : Akumuli.get_wal_settings fs conf = .ok w)
    (hm : (p ++ "/db.akumuli") ∉ fs) :
    Akumuli.cmd_run_server fs conf
      = .ok { messages := [Akumuli.db_missing_error p],
              wal_enabled := false, servers_started := false } ∧
    Akumuli.main_run_server fs conf
      = .ok (0, [Akumuli.db_missing_error p]) := by
  have h1 : Akumuli.cmd_run_server fs conf
      = .ok { messages := [Akumuli.db_missing_error p],
              wal_enabled := false, servers_started := false } := by
    simp [Akumuli.cmd_run_server, hp, hsrv, hwal, Akumuli.expand_path, hm]
  exact ⟨h1, by simp [Akumuli.main_run_server, h1]⟩

/-- C5 witness: a concrete configuration `path=/srv` with no manifest on
disk refuses startup, prints the error, and exits 0. -/
theorem C5_missing_manifest_exits_zero_witness :
    Akumuli.cmd_run_server ["/srv"]
        { root := [("path", "/srv")], sections := [] }
      = .ok { messages := [Akumuli.db_missing_error "/srv"],
              wal_enabled := false, servers_started := false } ∧
    Akumuli.main_run_server ["/srv"]
        { root := [("path", "/srv")], sections := [] }
      = .ok (0, [Akumuli.db_missing_error "/srv"]) :=
  C5_missing_manifest_exits_zero ["/srv"]
    { root := [("path", "/srv")], sections := [] }
    "/srv" [] {} rfl rfl rfl (by decide)

/-- C6 counterexample: for a [WAL] section whose `WAL.path` does not
exist on disk (manifest present, other WAL values legal),
`get_wal_settings` THROWS "WAL.path doesn't exist" before
`cmd_run_server` reaches its validation block, so the daemon aborts
startup (exit 1) instead of starting with WAL disabled and printing a
message naming the setting, as the claim states. -/
theorem C6_wal_path_counterexample :
    Akumuli.get_wal_settings ["/data", "/data/db.akumuli"]
        { root := [("path", "/data")],
          sections := [{ name := "WAL",
                         entries := [("path", "/wal"), ("nvolumes", "4"),
                                     ("volume_size", "256MB")] }] }
      = .thrown "WAL.path doesn't exist" ∧
    Akumuli.main_run_server ["/data", "/data/db.akumuli"]
        { root := [("path", "/data")],
          sections := [{ name := "WAL",
                         entries := [("path", "/wal"), ("nvolumes", "4"),
                                     ("volume_size", "256MB")] }] }
      = .ok (1, ["**FAILURE** WAL.path doesn't exist"]) := by
  constructor <;> rfl

/-- C6 (amended): with the [WAL] outer guard satisfied (non-empty path,
non-zero volume count and encoded size), a `WAL.nvolumes` outside
`{0} ∪ [2,1000]` or a `WAL.volume_size` outside `[1 MiB, 1 GiB]` makes
the daemon start with WAL disabled and print an `**ERROR**` naming the
offending setting; but a `WAL.path` that does not exist on disk instead
makes `get_wal_settings` throw, aborting startup with exit code 1. -/
theorem C6_wal_bounds_amended :
    (∀ (fs : List String) (conf : Akumuli.Ini) (p : String)
       (ns : List Int) (w : Akumuli.WALSettings),
      conf.get? "path" = some p →
      Akumuli.get_server_settings_nworkers conf = .ok ns →
      Akumuli.get_wal_settings fs conf = .ok w →
      (p ++ "/db.akumuli") ∈ fs →
      w.path ≠ "" → w.nvolumes ≠ 0 → w.volume_size_bytes ≠ 0 →
      (w.nvolumes < 0 ∨ w.nvolumes > 1000 ∨ w.nvolumes = 1) →
      1048576 ≤ w.volume_size_bytes → w.volume_size_bytes ≤ 1073741824 →
      w.path ∈ fs →
      Akumuli.cmd_run_server fs conf
        = .ok { messages := [Akumuli.wal_nvolumes_error w.nvolumes],
                wal_enabled := false, servers_started := true } ∧
      Akumuli.main_run_server fs conf
        = .ok (0, [Akumuli.wal_nvolumes_error w.nvolumes])) ∧
    (∀ (fs : List String) (conf : Akumuli.Ini) (p : String)
       (ns : List Int) (w : Akumuli.WALSettings),
      conf.get? "path" = some p →
      Akumuli.get_server_settings_nworkers conf = .ok ns →
      Akumuli.get_wal_settings fs conf = .ok w →
      (p ++ "/db.akumuli") ∈ fs →
      w.path ≠ "" → w.nvolumes ≠ 0 → w.volume_size_bytes ≠ 0 →
      ¬ w.nvolumes < 0 → ¬ w.nvolumes > 1000 → w.nvolumes ≠ 1 →
      (w.volume_size_bytes < 1048576 ∨ w.volume_size_bytes > 1073741824) →
      w.path ∈ fs →
      Akumuli.cmd_run_server fs conf
        = .ok { messages :=
                  [Akumuli.wal_volume_size_error w.volume_size_bytes],
                wal_enabled := false, servers_started := true } ∧
      Akumuli.main_run_server fs conf
        = .ok (0, [Akumuli.wal_volume_size_error w.volume_size_bytes])) ∧
    (∀ (fs : List String) (conf : Akumuli.Ini) (p : String) (ns : List Int),
      conf.hasChild "WAL" = true →
      Akumuli.expand_path (conf.getD "WAL.path" "") ∉ fs →
      conf.get? "path" = some p →
      Akumuli.get_server_settings_nworkers conf = .ok ns →
      Akumuli.get_wal_settings fs conf = .thrown "WAL.path doesn't exist" ∧
      Akumuli.main_run_server fs conf
        = .ok (1, ["**FAILURE** WAL.path doesn't exist"])) := by
  refine ⟨?_, ?_, ?_⟩
  · intro fs conf p ns w hp hsrv hwal hm hg1 hg2 hg3 hv hs1 hs2 hwp
    have h1 : Akumuli.cmd_run_server fs conf
        = .ok { messages := [Akumuli.wal_nvolumes_error w.nvolumes],
                wal_enabled := false, servers_started := true } := by
      simp [Akumuli.cmd_run_server, hp, hsrv, hwal, Akumuli.expand_path,
        hm, hg1, hg2, hg3, hv, hwp, not_lt.mpr hs1, not_lt.mpr hs2]
    exact ⟨h1, by simp [Akumuli.main_run_server, h1]⟩
  · intro fs conf p ns w hp hsrv hwal hm hg1 hg2 hg3 hn1 hn2 hn3 hv hwp
    have h1 : Akumuli.cmd_run_server fs conf
        = .ok { messages :=
                  [Akumuli.wal_volume_size_error w.volume_size_bytes],
                wal_enabled := false, servers_started := true } := by
      simp [Akumuli.cmd_run_server, hp, hsrv, hwal, Akumuli.expand_path,
        hm, hg1, hg2, hg3, hn1, hn2, hn3, hv, hwp]
    exact ⟨h1, by simp [Akumuli.main_run_server, h1]⟩
  · intro fs conf p ns hw hnp hp hsrv
    have h1 : Akumuli.get_wal_settings fs conf
        = .thrown "WAL.path doesn't exist" := by
      simp [Akumuli.get_wal_settings, hw, hnp]
    have h2 : Akumuli.cmd_run_server fs conf
        = .thrown "WAL.path doesn't exist" := by
      simp [Akumuli.cmd_run_server, hp, hsrv, h1]
    exact ⟨h1, by simp [Akumuli.main_run_server, h2]⟩

/-- C6 witness: `WAL.nvolumes=1` disables WAL and names `WAL.nvolumes`
in the error; `WAL.volume_size=512` disables WAL and names
`WAL.volume_size`; a non-existent `WAL.path=/wal` aborts startup with
exit 1. -/
theorem C6_wal_bounds_amended_witness :
    (Akumuli.cmd_run_server ["/data", "/data/db.akumuli", "/wal"]
        { root := [("path", "/data")],
          sections := [{ name := "WAL",
                         entries := [("path", "/wal"), ("nvolumes", "1"),
                                     ("volume_size", "256MB")] }] }
      = .ok { messages := [Akumuli.wal_nvolumes_error 1],
              wal_enabled := false, servers_started := true } ∧
     Akumuli.main_run_server ["/data", "/data/db.akumuli", "/wal"]
        { root := [("path", "/data")],
          sections := [{ name := "WAL",
                         entries := [("path", "/wal"), ("nvolumes", "1"),
                                     ("volume_size", "256MB")] }] }
      = .ok (0, [Akumuli.wal_nvolumes_error 1])) ∧
    (Akumuli.cmd_run_server ["/data", "/data/db.akumuli", "/wal"]
        { root := [("path", "/data")],
          sections := [{ name := "WAL",
                         entries := [("path", "/wal"), ("nvolumes", "4"),
                                     ("volume_size", "512")] }] }
      = .ok { messages := [Akumuli.wal_volume_size_error 512],
              wal_enabled := false, servers_started := true } ∧
     Akumuli.main_run_server ["/data", "/data/db.akumuli", "/wal"]
        { root := [("path", "/data")],
          sections := [{ name := "WAL",
                         entries := [("path", "/wal"), ("nvolumes", "4"),
                                     ("volume_size", "512")] }] }
      = .ok (0, [Akumuli.wal_volume_size_error 512])) ∧
    (Akumuli.get_wal_settings ["/db", "/db/db.akumuli"]
        { root := [("path", "/db")],
          sections := [{ name := "WAL",
                         entries := [("path", "/wal"), ("nvolumes", "4"),
                                     ("volume_size", "256MB")] }] }
      = .thrown "WAL.path doesn't exist" ∧
     Akumuli.main_run_server ["/db", "/db/db.akumuli"]
        { root := [("path", "/db")],
          sections := [{ name := "WAL",
                         entries := [("path", "/wal"), ("nvolumes", "4"),
                                     ("volume_size", "256MB")] }] }
      = .ok (1, ["**FAILURE** WAL.path doesn't exist"])) :=
  ⟨C6_wal_bounds_amended.1 ["/data", "/data/db.akumuli", "/wal"]
      { root := [("path", "/data")],
        sections := [{ name := "WAL",
                       entries := [("path", "/wal"), ("nvolumes", "1"),
                                   ("volume_size", "256MB")] }] }
      "/data" [] { path := "/wal", nvolumes := 1,
                   volume_size_bytes := 268435456 }
      rfl rfl rfl (by decide) (by decide) (by decide) (by decide)
      (Or.inr (Or.inr rfl)) (by decide) (by decide) (by decide),
   C6_wal_bounds_amended.2.1 ["/data", "/data/db.akumuli", "/wal"]
      { root := [("path", "/data")],
        sections := [{ name := "WAL",
                       entries := [("path", "/wal"), ("nvolumes", "4"),
                                   ("volume_size", "512")] }] }
      "/data" [] { path := "/wal", nvolumes := 4, volume_size_bytes := 512 }
      rfl rfl rfl (by decide) (by decide) (by decide) (by decide)
      (by decide) (by decide) (by decide) (Or.inl (by decide)) (by decide),
   C6_wal_bounds_amended.2.2 ["/db", "/db/db.akumuli"]
      { root := [("path", "/db")],
        sections := [{ name := "WAL",
                       entries := [("path", "/wal"), ("nvolumes", "4"),
                                   ("volume_size", "256MB")] }] }
      "/db" [] rfl (by decide) rfl rfl⟩

namespace Akumuli

/-- Every reachable state of the UDP stop-protocol system satisfies the
inductive invariant (proof by induction over the reachability
derivation, case analysis on the interleaving step). -/
theorem udpInv_reachable {n : Nat} {s : UdpSys n}
    (h : UdpReachable n s) : UdpInv s := by
  induction h with
  | init =>
      refine ⟨?_, ?_, ?_, ?_, ?_, ?_⟩ <;> simp [udpInit, UdpInv]
  | step s t hr hstep ih =>
      obtain ⟨i1, i2, i3, i4, i5, i6⟩ := ih
      cases hstep with
      | setFlag h =>
          refine ⟨fun _ => rfl, fun _ => rfl, fun w b hb hw => i3 w b hb hw,
                  i4, ?_, fun hc => i6 hc⟩
          intro hc
          rw [i5 hc] at h
          cases h
      | sendWake h =>
          refine ⟨fun _ => i1 (by rw [h]; intro hx; cases hx),
                  fun _ => i1 (by rw [h]; intro hx; cases hx),
                  fun w b hb hw => rfl, i4, ?_, fun hc => i6 hc⟩
          intro hc
          rw [i5 hc] at h
          cases h
      | stopArrive h =>
          refine ⟨fun _ => i1 (by rw [h]; intro hx; cases hx),
                  i2, i3, i4, ?_, fun hc => i6 hc⟩
          intro hc
          rw [i5 hc] at h
          cases h
      | closeSocket h hall =>
          exact ⟨fun _ => i1 (by rw [h]; intro hx; cases hx),
                 i2, i3, i4, fun _ => rfl, fun _ => hall⟩
      | recvBatch w batch h hwake =>
          refine ⟨i1, i2, ?_, ?_, i5, ?_⟩
          · intro v b hv hw
            by_cases hvw : v = w
            · subst hvw
              simp only [Function.update_same] at hv
              cases hv
              exact hwake hw
            · simp only [Function.update_noteq hvw] at hv
              exact i3 v b hv hw
          · intro v b hv
            by_cases hvw : v = w
            · subst hvw
              simp only [Function.update_same] at hv
              cases hv
            · simp only [Function.update_noteq hvw] at hv
              exact i4 v b hv
          · intro hc
            have := i6 hc w
            rw [h] at this
            rcases this with h' | h' <;> cases h'
      | recvFail w h =>
          refine ⟨i1, i2, ?_, ?_, i5, ?_⟩
          · intro v b hv hw
            by_cases hvw : v = w
            · subst hvw
              simp only [Function.update_same] at hv
              cases hv
            · simp only [Function.update_noteq hvw] at hv
              exact i3 v b hv hw
          · intro v b hv
            by_cases hvw : v = w
            · subst hvw
              simp only [Function.update_same] at hv
              cases hv
            · simp only [Function.update_noteq hvw] at hv
              exact i4 v b hv
          · intro hc
            have := i6 hc w
            rw [h] at this
            rcases this with h' | h' <;> cases h'
      | checkStopSet w batch h hf =>
          refine ⟨i1, i2, ?_, ?_, i5, ?_⟩
          · intro v b hv hw
            by_cases hvw : v = w
            · subst hvw
              simp only [Function.update_same] at hv
              cases hv
            · simp only [Function.update_noteq hvw] at hv
              exact i3 v b hv hw
          · intro v b hv
            by_cases hvw : v = w
            · subst hvw
              simp only [Function.update_same] at hv
              cases hv
            · simp only [Function.update_noteq hvw] at hv
              exact i4 v b hv
          · intro hc
            have := i6 hc w
            rw [h] at this
            rcases this with h' | h' <;> cases h'
      | checkStopClear w batch h hf =>
          refine ⟨i1, i2, ?_, ?_, i5, ?_⟩
          · intro v b hv hw
            by_cases hvw : v = w
            · subst hvw
              simp only [Function.update_same] at hv
              cases hv
            · simp only [Function.update_noteq hvw] at hv
              exact i3 v b hv hw
          · intro v b hv
            by_cases hvw : v = w
            · subst hvw
              simp only [Function.update_same] at hv
              cases hv
              intro hw
              have := i2 (i3 v batch h hw)
              rw [hf] at this
              cases this
            · simp only [Function.update_noteq hvw] at hv
              exact i4 v b hv
          · intro hc
            have := i6 hc w
            rw [h] at this
            rcases this with h' | h' <;> cases h'
      | finishBatch w batch h =>
          refine ⟨i1, i2, ?_, ?_, i5, ?_⟩
          · intro v b hv hw
            by_cases hvw : v = w
            · subst hvw
              simp only [Function.update_same] at hv
              cases hv
            · simp only [Function.update_noteq hvw] at hv
              exact i3 v b hv hw
          · intro v b hv
            by_cases hvw : v = w
            · subst hvw
              simp only [Function.update_same] at hv
              cases hv
            · simp only [Function.update_noteq hvw] at hv
              exact i4 v b hv
          · intro hc
            have := i6 hc w
            rw [h] at this
            rcases this with h' | h' <;> cases h'
      | parseFail w batch h =>
          refine ⟨i1, i2, ?_, ?_, i5, ?_⟩
          · intro v b hv hw
            by_cases hvw : v = w
            · subst hvw
              simp only [Function.update_same] at hv
              cases hv
            · simp only [Function.update_noteq hvw] at hv
              exact i3 v b hv hw
          · intro v b hv
            by_cases hvw : v = w
            · subst hvw
              simp only [Function.update_same] at hv
              cases hv
            · simp only [Function.update_noteq hvw] at hv
              exact i4 v b hv
          · intro hc
            have := i6 hc w
            rw [h] at this
            rcases this with h' | h' <;> cases h'
      | workerPassBarrier w h hstop hall =>
          refine ⟨i1, i2, ?_, ?_, i5, ?_⟩
          · intro v b hv hw
            by_cases hvw : v = w
            · subst hvw
              simp only [Function.update_same] at hv
              cases hv
            · simp only [Function.update_noteq hvw] at hv
              exact i3 v b hv hw
          · intro v b hv
            by_cases hvw : v = w
            · subst hvw
              simp only [Function.update_same] at hv
              cases hv
            · simp only [Function.update_noteq hvw] at hv
              exact i4 v b hv
          · intro hc v
            by_cases hvw : v = w
            · subst hvw
              simp only [Function.update_same]
              exact Or.inr rfl
            · simp only [Function.update_noteq hvw]
              exact i6 hc v

end Akumuli

/-- C1: in every reachable state of the UDP server stop protocol
(arbitrary interleavings of `stop()` and the `n` workers): the wake
datagram is on the wire only after `stop()` has stored 1 into `stop_`
(store-then-send program order); every worker tests the stop flag after
returning from the batch receive and before parsing, so a batch being
parsed never contains the synthetic wake byte; and the socket is closed
only after the stop thread has passed the `N+1` stop barrier, hence only
after every worker has left its receive loop. -/
theorem C1_udp_stop_protocol (n : Nat) (s : Akumuli.UdpSys n)
    (h : Akumuli.UdpReachable n s) :
    (s.wakeSent = true → s.stopFlag = true) ∧
    (∀ w b, s.workers w = .parse b → Akumuli.UdpPacket.wake ∉ b) ∧
    (s.socketClosed = true → s.stopPh = .closed) ∧
    (s.socketClosed = true → ∀ w, Akumuli.leftRecvLoop (s.workers w)) := by
  obtain ⟨i1, i2, i3, i4, i5, i6⟩ := Akumuli.udpInv_reachable h
  exact ⟨i2, i4, i5, i6⟩

/-- C1 witness: the state of a one-worker server reached after
`stop_.store(1)` followed by `sendByteToLocalhost` satisfies the claimed
properties (the reachability hypothesis is discharged by the explicit
two-step derivation). -/
theorem C1_udp_stop_protocol_witness :
    (({ stopFlag := true, wakeSent := true, socketClosed := false,
        stopPh := .wakeSent, workers := fun _ => .recv } :
          Akumuli.UdpSys 1).wakeSent = true →
      ({ stopFlag := true, wakeSent := true, socketClosed := false,
         stopPh := .wakeSent, workers := fun _ => .recv } :
           Akumuli.UdpSys 1).stopFlag = true) ∧
    (∀ w b, ({ stopFlag := true, wakeSent := true, socketClosed := false,
               stopPh := .wakeSent, workers := fun _ => .recv } :
                 Akumuli.UdpSys 1).workers w = .parse b →
      Akumuli.UdpPacket.wake ∉ b) ∧
    (({ stopFlag := true, wakeSent := true, socketClosed := false,
        stopPh := .wakeSent, workers := fun _ => .recv } :
          Akumuli.UdpSys 1).socketClosed = true →
      ({ stopFlag := true, wakeSent := true, socketClosed := false,
         stopPh := .wakeSent, workers := fun _ => .recv } :
           Akumuli.UdpSys 1).stopPh = .closed) ∧
    (({ stopFlag := true, wakeSent := true, socketClosed := false,
        stopPh := .wakeSent, workers := fun _ => .recv } :
          Akumuli.UdpSys 1).socketClosed = true →
      ∀ w, Akumuli.leftRecvLoop
        (({ stopFlag := true, wakeSent := true, socketClosed := false,
            stopPh := .wakeSent, workers := fun _ => .recv } :
              Akumuli.UdpSys 1).workers w)) :=
  C1_udp_stop_protocol 1
    { stopFlag := true, wakeSent := true, socketClosed := false,
      stopPh := .wakeSent, workers := fun _ => .recv }
    (Akumuli.UdpReachable.step _ _
      (Akumuli.UdpReachable.step _ _ Akumuli.UdpReachable.init
        (Akumuli.UdpStep.setFlag _ rfl))
      (Akumuli.UdpStep.sendWake _ rfl))
